import Mathlib

/-!
Verification development for the AI Weather Assistant flight-safety core.

Shallow embedding of `src/flight_analyzer.py`, `src/Weather_alerts.py` and
`src/config.py`. Python floats are modelled as exact rationals (`ℚ`); the
Python `int(...)` conversion is modelled by `pytrunc` (truncation toward
zero); the wall clock consulted by `datetime.now().isoformat()` inside
`WeatherAlert.__init__` is made explicit as a `now : String` argument.
Recommendation lines (Python f-strings) are modelled by the tagged type
`RecLine`, one constructor per template string of the source, together with
a `render` function producing the literal text (numeric payloads rendered by
`fmt1`, the model of Python's `"{x:.1f}"` formatting).
-/

namespace WeatherAssistant

/-- Python `int(x)` on a float: truncation toward zero, computed on the
reduced fraction. -/
def pytrunc (q : ℚ) : ℤ := q.num.tdiv q.den

/-- Floor of a rational as integer division of numerator by denominator
(kept kernel-computable; agrees with `Int.floor`). -/
def ratFloorZ (q : ℚ) : ℤ := q.num / (q.den : ℤ)

/-- One-decimal rendering, modelling Python's `f"{x:.1f}"` (rounding mode
idealised as round-half-up on the exact rational). -/
def fmt1 (q : ℚ) : String :=
  let sign := if q < 0 then "-" else ""
  let n : ℤ := ratFloorZ (|q| * 10 + 1 / 2)
  sign ++ toString (n / 10) ++ "." ++ toString (n % 10)

/-- Lower-casing of a string, modelling Python `str.lower()` on ASCII data. -/
def strLower (s : String) : String := String.mk (s.data.map Char.toLower)

/-- Containment of `needle` as a contiguous run of `hay`. -/
def charsContain (needle : List Char) : List Char → Bool
  | [] => needle.isEmpty
  | b :: bs => needle.isPrefixOf (b :: bs) || charsContain needle bs

/-- Substring containment, modelling Python's `needle in hay`. -/
def strContains (hay needle : String) : Bool := charsContain needle.data hay.data

/-! ### Data model: the normalized weather reading (`weather_data` dict) -/

structure Wind where
  speed : ℚ
  gust : ℚ
  deriving DecidableEq, Repr

structure Temperature where
  current : ℚ
  deriving DecidableEq, Repr

structure Precipitation where
  rain_1h : ℚ
  snow_1h : ℚ
  deriving DecidableEq, Repr

structure WeatherMain where
  main : String
  deriving DecidableEq, Repr

structure WeatherData where
  wind : Wind
  visibility : ℚ
  temperature : Temperature
  precipitation : Precipitation
  cloudiness : ℚ
  pressure : ℚ
  weather : WeatherMain
  deriving DecidableEq, Repr

/-! ### Configuration (`src/config.py`) -/

structure Limits3 where
  safe : ℚ
  caution : ℚ
  dangerous : ℚ
  deriving DecidableEq, Repr

structure TempLimits where
  min_safe : ℚ
  max_safe : ℚ
  deriving DecidableEq, Repr

structure PrecipLimits where
  light : ℚ
  moderate : ℚ
  heavy : ℚ
  deriving DecidableEq, Repr

namespace Config

def WIND_SPEED_LIMITS : Limits3 := ⟨15, 25, 35⟩

def VISIBILITY_LIMITS : Limits3 := ⟨10, 5, 1⟩

def TEMPERATURE_LIMITS : TempLimits := ⟨-10, 40⟩

def PRECIPITATION_LIMITS : PrecipLimits := ⟨2.5, 7.6, 50⟩

end Config

/-! ### Scoring engine (`src/flight_analyzer.py`) -/

inductive FlightSafety where
  | SAFE
  | CAUTION
  | DANGEROUS
  | NO_FLY
  deriving DecidableEq, Repr

/-- `FlightAnalyzer._analyze_wind`: wind sub-score from the higher of speed
and gust. -/
def analyze_wind (wind_data : Wind) : ℚ :=
  let effective_wind := max wind_data.speed wind_data.gust
  if effective_wind ≤ Config.WIND_SPEED_LIMITS.safe then 100
  else if effective_wind ≤ Config.WIND_SPEED_LIMITS.caution then
    70 - (pytrunc ((effective_wind - Config.WIND_SPEED_LIMITS.safe) * 3) : ℚ)
  else if effective_wind ≤ Config.WIND_SPEED_LIMITS.dangerous then
    40 - (pytrunc ((effective_wind - Config.WIND_SPEED_LIMITS.caution) * 2) : ℚ)
  else 0

/-- `FlightAnalyzer._analyze_visibility`. -/
def analyze_visibility (visibility_km : ℚ) : ℚ :=
  if visibility_km ≥ Config.VISIBILITY_LIMITS.safe then 100
  else if visibility_km ≥ Config.VISIBILITY_LIMITS.caution then 70
  else if visibility_km ≥ Config.VISIBILITY_LIMITS.dangerous then 30
  else 0

/-- `FlightAnalyzer._analyze_temperature`. -/
def analyze_temperature (temperature : ℚ) : ℚ :=
  if Config.TEMPERATURE_LIMITS.min_safe ≤ temperature ∧
      temperature ≤ Config.TEMPERATURE_LIMITS.max_safe then 100
  else if temperature < Config.TEMPERATURE_LIMITS.min_safe then
    max 0 (100 - (Config.TEMPERATURE_LIMITS.min_safe - temperature) * 5)
  else
    max 0 (100 - (temperature - Config.TEMPERATURE_LIMITS.max_safe) * 3)

/-- `FlightAnalyzer._analyze_precipitation`. -/
def analyze_precipitation (precip_data : Precipitation) : ℚ :=
  let total_precip := precip_data.rain_1h + precip_data.snow_1h
  if total_precip = 0 then 100
  else if total_precip ≤ Config.PRECIPITATION_LIMITS.light then 80
  else if total_precip ≤ Config.PRECIPITATION_LIMITS.moderate then 50
  else if total_precip ≤ Config.PRECIPITATION_LIMITS.heavy then 20
  else 0

/-- `FlightAnalyzer._analyze_clouds`. -/
def analyze_clouds (cloudiness : ℚ) : ℚ :=
  if cloudiness ≤ 25 then 100
  else if cloudiness ≤ 50 then 85
  else if cloudiness ≤ 75 then 70
  else 50

/-- `FlightAnalyzer._determine_safety_level`: tier from the (float) total. -/
def determine_safety_level (score : ℚ) : FlightSafety :=
  if score ≥ 80 then .SAFE
  else if score ≥ 60 then .CAUTION
  else if score ≥ 30 then .DANGEROUS
  else .NO_FLY

/-- The weighted float total accumulated in `calculate_flight_score`. -/
def total_score (wd : WeatherData) : ℚ :=
  analyze_wind wd.wind * 0.3 + analyze_visibility wd.visibility * 0.25 +
    analyze_temperature wd.temperature.current * 0.15 +
    analyze_precipitation wd.precipitation * 0.20 +
    analyze_clouds wd.cloudiness * 0.10

/-- `FlightAnalyzer.calculate_flight_score`: `None` (falsy input) gives
`(0, NO_FLY)`; otherwise the weighted total is truncated with `int(...)`
and the tier is computed from the un-truncated total. -/
def calculate_flight_score (weather_data : Option WeatherData) :
    ℤ × FlightSafety :=
  match weather_data with
  | none => (0, .NO_FLY)
  | some wd => (pytrunc (total_score wd), determine_safety_level (total_score wd))

/-! ### Alert evaluator (`src/Weather_alerts.py`)

The `WeatherAlert` constructor defaults its `timestamp` to
`datetime.now().isoformat()`; the clock is passed explicitly as `now`. -/

inductive AlertLevel where
  | INFO
  | WARNING
  | CRITICAL
  | EMERGENCY
  deriving DecidableEq, Repr

structure WeatherAlert where
  level : AlertLevel
  title : String
  message : String
  timestamp : String
  deriving DecidableEq, Repr

/-- Wind bracket of `check_weather_alerts` (lines 31-50): raw speed only,
highest bracket wins. -/
def windAlerts (wind_speed : ℚ) (now : String) : List WeatherAlert :=
  if wind_speed > 40 then
    [⟨.EMERGENCY, "Extreme Wind Warning",
      "Wind speed " ++ fmt1 wind_speed ++ " km/h exceeds safe limits. DO NOT FLY.", now⟩]
  else if wind_speed > 30 then
    [⟨.CRITICAL, "High Wind Warning",
      "Wind speed " ++ fmt1 wind_speed ++ " km/h. Flight operations not recommended.", now⟩]
  else if wind_speed > 20 then
    [⟨.WARNING, "Wind Advisory",
      "Wind speed " ++ fmt1 wind_speed ++ " km/h. Exercise extreme caution.", now⟩]
  else []

/-- Visibility bracket of `check_weather_alerts` (lines 52-65). -/
def visibilityAlerts (visibility : ℚ) (now : String) : List WeatherAlert :=
  if visibility < 1 then
    [⟨.CRITICAL, "Low Visibility Warning",
      "Visibility " ++ fmt1 visibility ++ " km. Visual flight rules not recommended.", now⟩]
  else if visibility < 3 then
    [⟨.WARNING, "Reduced Visibility",
      "Visibility " ++ fmt1 visibility ++ " km. Maintain visual observers.", now⟩]
  else []

/-- Temperature bracket of `check_weather_alerts` (lines 67-80). -/
def temperatureAlerts (temp : ℚ) (now : String) : List WeatherAlert :=
  if temp < -15 then
    [⟨.CRITICAL, "Extreme Cold Warning",
      "Temperature " ++ fmt1 temp ++ "°C. Battery and equipment failure risk.", now⟩]
  else if temp > 45 then
    [⟨.CRITICAL, "Extreme Heat Warning",
      "Temperature " ++ fmt1 temp ++ "°C. Overheating risk for electronics.", now⟩]
  else []

/-- Precipitation bracket of `check_weather_alerts` (lines 82-97). -/
def precipitationAlerts (rain snow : ℚ) (now : String) : List WeatherAlert :=
  if rain > 10 ∨ snow > 10 then
    [⟨.CRITICAL, "Heavy Precipitation Warning",
      "Heavy rain/snow detected. Equipment damage risk.", now⟩]
  else if rain > 2.5 ∨ snow > 2.5 then
    [⟨.WARNING, "Precipitation Advisory",
      "Moderate precipitation. Protect equipment from moisture.", now⟩]
  else []

/-- Pressure bracket of `check_weather_alerts` (lines 99-112). Python
interpolates the raw float with `str`; rendered here with `fmt1`. -/
def pressureAlerts (pressure : ℚ) (now : String) : List WeatherAlert :=
  if pressure < 980 then
    [⟨.WARNING, "Low Pressure System",
      "Low barometric pressure " ++ fmt1 pressure ++ " hPa. Storm system possible.", now⟩]
  else if pressure > 1030 then
    [⟨.INFO, "High Pressure System",
      "High barometric pressure " ++ fmt1 pressure ++ " hPa. Stable conditions expected.", now⟩]
  else []

/-- Weather-category bracket of `check_weather_alerts` (lines 114-127). -/
def weatherMainAlerts (main : String) (now : String) : List WeatherAlert :=
  let weather_main := strLower main
  if strContains weather_main "thunderstorm" then
    [⟨.EMERGENCY, "Thunderstorm Warning",
      "Thunderstorm conditions detected. IMMEDIATE LANDING REQUIRED.", now⟩]
  else if strContains weather_main "tornado" then
    [⟨.EMERGENCY, "Tornado Warning",
      "Tornado activity detected. SEEK IMMEDIATE SHELTER.", now⟩]
  else []

/-- `WeatherAlerts.check_weather_alerts`: the rules append in declaration
order (wind, visibility, temperature, precipitation, pressure, category). -/
def check_weather_alerts (weather_data : WeatherData) (now : String) :
    List WeatherAlert :=
  windAlerts weather_data.wind.speed now ++
    visibilityAlerts weather_data.visibility now ++
    temperatureAlerts weather_data.temperature.current now ++
    precipitationAlerts weather_data.precipitation.rain_1h
      weather_data.precipitation.snow_1h now ++
    pressureAlerts weather_data.pressure now ++
    weatherMainAlerts weather_data.weather.main now

/-! ### Recommendation generator
(`FlightAnalyzer.generate_flight_recommendations`, lines 135-176)

Each f-string template of the source becomes one constructor of `RecLine`,
carrying the interpolated number; `render` produces the literal text. -/

inductive RecLine where
  | highWind (w : ℚ)
  | moderateWind (w : ℚ)
  | lowVisibility (v : ℚ)
  | coldTemp (t : ℚ)
  | hotTemp (t : ℚ)
  | rainDetected (r : ℚ)
  | snowDetected (s : ℚ)
  | closing (level : FlightSafety)
  deriving DecidableEq, Repr

def render : RecLine → String
  | .highWind w => "⚠️ High wind speeds (" ++ fmt1 w ++ " km/h). Consider postponing flight."
  | .moderateWind w => "🌪️ Moderate winds (" ++ fmt1 w ++ " km/h). Experienced pilots only."
  | .lowVisibility v => "🌫️ Low visibility (" ++ fmt1 v ++ " km). Use visual observers."
  | .coldTemp t => "🥶 Cold temperature (" ++ fmt1 t ++ "°C). Check battery performance."
  | .hotTemp t => "🌡️ High temperature (" ++ fmt1 t ++ "°C). Monitor for overheating."
  | .rainDetected r => "🌧️ Rain detected (" ++ fmt1 r ++ "mm/h). Protect equipment from moisture."
  | .snowDetected s => "❄️ Snow detected (" ++ fmt1 s ++ "mm/h). Cold weather precautions advised."
  | .closing .SAFE => "✅ Conditions are favorable for flight operations."
  | .closing .CAUTION => "⚠️ Proceed with caution. Monitor conditions closely."
  | .closing .DANGEROUS => "❌ Flight not recommended. Wait for better conditions."
  | .closing .NO_FLY => "🚫 DO NOT FLY. Conditions are unsafe for operations."

/-- Recognises the four closing lines appended from the tier lookup. -/
def isClosing : RecLine → Bool
  | .closing _ => true
  | _ => false

/-- Recognises the two wind-related recommendation lines. -/
def isWindLine : RecLine → Bool
  | .highWind _ => true
  | .moderateWind _ => true
  | _ => false

/-- `FlightAnalyzer.generate_flight_recommendations`: sequential appends of
the source, as list concatenation. The `score` argument is accepted and
unused, exactly as in the source. -/
def generate_flight_recommendations (weather_data : WeatherData) (score : ℤ)
    (safety_level : FlightSafety) : List RecLine :=
  let _ := score
  (if weather_data.wind.speed > Config.WIND_SPEED_LIMITS.caution then
      [RecLine.highWind weather_data.wind.speed]
    else if weather_data.wind.speed > Config.WIND_SPEED_LIMITS.safe then
      [RecLine.moderateWind weather_data.wind.speed]
    else []) ++
  (if weather_data.visibility < Config.VISIBILITY_LIMITS.caution then
      [RecLine.lowVisibility weather_data.visibility]
    else []) ++
  (if weather_data.temperature.current < Config.TEMPERATURE_LIMITS.min_safe then
      [RecLine.coldTemp weather_data.temperature.current]
    else if weather_data.temperature.current > Config.TEMPERATURE_LIMITS.max_safe then
      [RecLine.hotTemp weather_data.temperature.current]
    else []) ++
  (if weather_data.precipitation.rain_1h > 0 then
      [RecLine.rainDetected weather_data.precipitation.rain_1h]
    else []) ++
  (if weather_data.precipitation.snow_1h > 0 then
      [RecLine.snowDetected weather_data.precipitation.snow_1h]
    else []) ++
  [RecLine.closing safety_level]

/-- The recommendation strings as the Python function returns them. -/
def generate_flight_recommendations_str (weather_data : WeatherData)
    (score : ℤ) (safety_level : FlightSafety) : List String :=
  (generate_flight_recommendations weather_data score safety_level).map render

/-! ### Helper lemmas -/

lemma pytrunc_eq_floor {q : ℚ} (h : 0 ≤ q) : pytrunc q = ⌊q⌋ := by
  rw [pytrunc, Int.tdiv_eq_ediv (Rat.num_nonneg.mpr h) (Int.natCast_nonneg q.den),
    Rat.floor_def]

lemma pytrunc_nonneg {q : ℚ} (h : 0 ≤ q) : 0 ≤ pytrunc q := by
  rw [pytrunc_eq_floor h]; exact Int.floor_nonneg.mpr h

lemma pytrunc_cast_le {q : ℚ} (h : 0 ≤ q) : (pytrunc q : ℚ) ≤ q := by
  rw [pytrunc_eq_floor h]; exact Int.floor_le q

lemma pytrunc_mono {a b : ℚ} (ha : 0 ≤ a) (h : a ≤ b) : pytrunc a ≤ pytrunc b := by
  rw [pytrunc_eq_floor ha, pytrunc_eq_floor (ha.trans h)]
  exact Int.floor_mono h

lemma analyze_wind_bounds (w : Wind) : 0 ≤ analyze_wind w ∧ analyze_wind w ≤ 100 := by
  unfold analyze_wind Config.WIND_SPEED_LIMITS
  dsimp only
  split_ifs with h1 h2 h3
  · norm_num
  · push_neg at h1
    have harg : (0 : ℚ) ≤ (max w.speed w.gust - 15) * 3 := by nlinarith
    have hle : ((pytrunc ((max w.speed w.gust - 15) * 3) : ℤ) : ℚ) ≤
        (max w.speed w.gust - 15) * 3 := pytrunc_cast_le harg
    have hnn : (0 : ℚ) ≤ ((pytrunc ((max w.speed w.gust - 15) * 3) : ℤ) : ℚ) := by
      exact_mod_cast pytrunc_nonneg harg
    constructor
    · nlinarith [hle, h2]
    · nlinarith [hnn]
  · push_neg at h2
    have harg : (0 : ℚ) ≤ (max w.speed w.gust - 25) * 2 := by nlinarith
    have hle : ((pytrunc ((max w.speed w.gust - 25) * 2) : ℤ) : ℚ) ≤
        (max w.speed w.gust - 25) * 2 := pytrunc_cast_le harg
    have hnn : (0 : ℚ) ≤ ((pytrunc ((max w.speed w.gust - 25) * 2) : ℤ) : ℚ) := by
      exact_mod_cast pytrunc_nonneg harg
    constructor
    · nlinarith [hle, h3]
    · nlinarith [hnn]
  · norm_num

lemma analyze_visibility_bounds (v : ℚ) :
    0 ≤ analyze_visibility v ∧ analyze_visibility v ≤ 100 := by
  unfold analyze_visibility Config.VISIBILITY_LIMITS
  dsimp only
  split_ifs <;> norm_num

lemma analyze_temperature_bounds (t : ℚ) :
    0 ≤ analyze_temperature t ∧ analyze_temperature t ≤ 100 := by
  unfold analyze_temperature Config.TEMPERATURE_LIMITS
  dsimp only
  split_ifs with h1 h2
  · norm_num
  · refine ⟨le_max_left _ _, max_le (by norm_num) ?_⟩
    nlinarith [h2]
  · refine ⟨le_max_left _ _, max_le (by norm_num) ?_⟩
    push_neg at h1
    have ht : (40 : ℚ) < t := h1 (not_lt.mp h2)
    nlinarith [ht]

lemma analyze_precipitation_bounds (p : Precipitation) :
    0 ≤ analyze_precipitation p ∧ analyze_precipitation p ≤ 100 := by
  unfold analyze_precipitation Config.PRECIPITATION_LIMITS
  dsimp only
  split_ifs <;> norm_num

lemma analyze_clouds_bounds (c : ℚ) :
    50 ≤ analyze_clouds c ∧ analyze_clouds c ≤ 100 := by
  unfold analyze_clouds
  split_ifs <;> norm_num

lemma total_score_bounds (wd : WeatherData) :
    5 ≤ total_score wd ∧ total_score wd ≤ 100 := by
  obtain ⟨w0, w1⟩ := analyze_wind_bounds wd.wind
  obtain ⟨v0, v1⟩ := analyze_visibility_bounds wd.visibility
  obtain ⟨t0, t1⟩ := analyze_temperature_bounds wd.temperature.current
  obtain ⟨p0, p1⟩ := analyze_precipitation_bounds wd.precipitation
  obtain ⟨c0, c1⟩ := analyze_clouds_bounds wd.cloudiness
  unfold total_score
  constructor <;> nlinarith

lemma total_score_nonneg (wd : WeatherData) : 0 ≤ total_score wd :=
  le_trans (by norm_num) (total_score_bounds wd).1

lemma determine_safety_level_floor (x : ℚ) :
    determine_safety_level x =
      (if 80 ≤ ⌊x⌋ then FlightSafety.SAFE
       else if 60 ≤ ⌊x⌋ then FlightSafety.CAUTION
       else if 30 ≤ ⌊x⌋ then FlightSafety.DANGEROUS
       else FlightSafety.NO_FLY) := by
  have h80 : ((80 : ℤ) ≤ ⌊x⌋) ↔ ((80 : ℚ) ≤ x) := by
    rw [Int.le_floor]; norm_num
  have h60 : ((60 : ℤ) ≤ ⌊x⌋) ↔ ((60 : ℚ) ≤ x) := by
    rw [Int.le_floor]; norm_num
  have h30 : ((30 : ℤ) ≤ ⌊x⌋) ↔ ((30 : ℚ) ≤ x) := by
    rw [Int.le_floor]; norm_num
  unfold determine_safety_level
  simp only [ge_iff_le]
  split_ifs with a1 a2 a3 b1 b2 b3 <;> first
    | rfl
    | (exact absurd (h80.mpr (by assumption)) (by assumption))
    | (exact absurd (h80.mp (by assumption)) (by assumption))
    | (exact absurd (h60.mpr (by assumption)) (by assumption))
    | (exact absurd (h60.mp (by assumption)) (by assumption))
    | (exact absurd (h30.mpr (by assumption)) (by assumption))
    | (exact absurd (h30.mp (by assumption)) (by assumption))

/-! ### Claims -/

/-- C1: for every present reading the returned score is the floor of the
weighted subscore sum `0.30*wind + 0.25*visibility + 0.15*temperature +
0.20*precipitation + 0.10*cloudiness`, lies in `[0, 100]`, and the returned
tier is given by inclusive lower bounds on the aggregate: `≥80` SAFE,
`≥60` CAUTION, `≥30` DANGEROUS, else NO_FLY. -/
theorem C1_score_floor_bounds_tier (r : WeatherData) :
    (calculate_flight_score (some r)).1 =
      ⌊0.30 * analyze_wind r.wind + 0.25 * analyze_visibility r.visibility +
        0.15 * analyze_temperature r.temperature.current +
        0.20 * analyze_precipitation r.precipitation +
        0.10 * analyze_clouds r.cloudiness⌋ ∧
    0 ≤ (calculate_flight_score (some r)).1 ∧
    (calculate_flight_score (some r)).1 ≤ 100 ∧
    (calculate_flight_score (some r)).2 =
      (if 80 ≤ (calculate_flight_score (some r)).1 then FlightSafety.SAFE
       else if 60 ≤ (calculate_flight_score (some r)).1 then FlightSafety.CAUTION
       else if 30 ≤ (calculate_flight_score (some r)).1 then FlightSafety.DANGEROUS
       else FlightSafety.NO_FLY) := by
  have hsum : 0.30 * analyze_wind r.wind + 0.25 * analyze_visibility r.visibility +
      0.15 * analyze_temperature r.temperature.current +
      0.20 * analyze_precipitation r.precipitation +
      0.10 * analyze_clouds r.cloudiness = total_score r := by
    unfold total_score; ring
  have hnn : 0 ≤ total_score r := total_score_nonneg r
  have h1 : (calculate_flight_score (some r)).1 = ⌊total_score r⌋ := by
    show pytrunc (total_score r) = ⌊total_score r⌋
    exact pytrunc_eq_floor hnn
  have h100 : (⌊total_score r⌋ : ℚ) ≤ 100 :=
    le_trans (Int.floor_le _) (total_score_bounds r).2
  refine ⟨by rw [h1, hsum], ?_, ?_, ?_⟩
  · rw [h1]; exact Int.floor_nonneg.mpr hnn
  · rw [h1]; exact_mod_cast h100
  · show determine_safety_level (total_score r) = _
    rw [determine_safety_level_floor _, h1]

/-- C2: the null/absent reading scores to exactly `(0, NO_FLY)`; the
function is total, so no error can be raised. -/
theorem C2_null_reading_no_fly :
    calculate_flight_score none = (0, FlightSafety.NO_FLY) := rfl

/-- The example reading of the spec's end-to-end test: wind 10 gust 0,
visibility 15, temperature 22, no precipitation, cloudiness 10,
pressure 1015, weatherMain "Clear". -/
def sample_clear_day : WeatherData := ⟨⟨10, 0⟩, 15, ⟨22⟩, ⟨0, 0⟩, 10, 1015, ⟨"Clear"⟩⟩

/-- The alert-evaluator test reading: wind 45 (gust arbitrary),
visibility 12, temperature 20, no precipitation, pressure 1013, "Clear". -/
def sample_high_wind (g : ℚ) : WeatherData := ⟨⟨45, g⟩, 12, ⟨20⟩, ⟨0, 0⟩, 10, 1013, ⟨"Clear"⟩⟩

/-- C4: on the clear-day example every sub-score is 100, the aggregate is
100 with tier SAFE, the alert list is empty for any evaluation instant, and
the recommendations are exactly the one SAFE closing line. -/
theorem C4_end_to_end_clear_day :
    analyze_wind sample_clear_day.wind = 100 ∧
    analyze_visibility sample_clear_day.visibility = 100 ∧
    analyze_temperature sample_clear_day.temperature.current = 100 ∧
    analyze_precipitation sample_clear_day.precipitation = 100 ∧
    analyze_clouds sample_clear_day.cloudiness = 100 ∧
    calculate_flight_score (some sample_clear_day) = (100, FlightSafety.SAFE) ∧
    (∀ now : String, check_weather_alerts sample_clear_day now = []) ∧
    generate_flight_recommendations_str sample_clear_day 100 FlightSafety.SAFE =
      ["✅ Conditions are favorable for flight operations."] := by
  have hw : analyze_wind sample_clear_day.wind = 100 := by
    norm_num [analyze_wind, Config.WIND_SPEED_LIMITS, sample_clear_day, max_def]
  have hv : analyze_visibility sample_clear_day.visibility = 100 := by
    norm_num [analyze_visibility, Config.VISIBILITY_LIMITS, sample_clear_day]
  have ht : analyze_temperature sample_clear_day.temperature.current = 100 := by
    norm_num [analyze_temperature, Config.TEMPERATURE_LIMITS, sample_clear_day]
  have hp : analyze_precipitation sample_clear_day.precipitation = 100 := by
    norm_num [analyze_precipitation, Config.PRECIPITATION_LIMITS, sample_clear_day]
  have hc : analyze_clouds sample_clear_day.cloudiness = 100 := by
    norm_num [analyze_clouds, sample_clear_day]
  have htot : total_score sample_clear_day = 100 := by
    rw [total_score, hw, hv, ht, hp, hc]; norm_num
  have hscore : calculate_flight_score (some sample_clear_day) =
      (100, FlightSafety.SAFE) := by
    show (pytrunc (total_score sample_clear_day),
        determine_safety_level (total_score sample_clear_day)) = _
    rw [htot, pytrunc_eq_floor (by norm_num)]
    norm_num [determine_safety_level]
  have hmain_ts : strContains (strLower "Clear") "thunderstorm" = false := rfl
  have hmain_tn : strContains (strLower "Clear") "tornado" = false := rfl
  refine ⟨hw, hv, ht, hp, hc, hscore, ?_, ?_⟩
  · intro now
    norm_num [check_weather_alerts, windAlerts, visibilityAlerts,
      temperatureAlerts, precipitationAlerts, pressureAlerts,
      weatherMainAlerts, sample_clear_day, hmain_ts, hmain_tn]
  · norm_num [generate_flight_recommendations_str,
      generate_flight_recommendations, Config.WIND_SPEED_LIMITS,
      Config.VISIBILITY_LIMITS, Config.TEMPERATURE_LIMITS,
      sample_clear_day, render]

/-- The wind bracket formula as a function of the effective wind; equals
`analyze_wind` composed with `max speed gust`. -/
def windScoreEff (e : ℚ) : ℚ :=
  if e ≤ Config.WIND_SPEED_LIMITS.safe then 100
  else if e ≤ Config.WIND_SPEED_LIMITS.caution then
    70 - (pytrunc ((e - Config.WIND_SPEED_LIMITS.safe) * 3) : ℚ)
  else if e ≤ Config.WIND_SPEED_LIMITS.dangerous then
    40 - (pytrunc ((e - Config.WIND_SPEED_LIMITS.caution) * 2) : ℚ)
  else 0

lemma analyze_wind_eq_eff (w : Wind) :
    analyze_wind w = windScoreEff (max w.speed w.gust) := rfl

lemma windScoreEff_of_b1 {e : ℚ} (h : e ≤ 15) : windScoreEff e = 100 := by
  unfold windScoreEff Config.WIND_SPEED_LIMITS
  rw [if_pos h]

lemma windScoreEff_of_b2 {e : ℚ} (h1 : ¬ e ≤ 15) (h2 : e ≤ 25) :
    windScoreEff e = 70 - (pytrunc ((e - 15) * 3) : ℚ) := by
  unfold windScoreEff Config.WIND_SPEED_LIMITS
  rw [if_neg h1, if_pos h2]

lemma windScoreEff_of_b3 {e : ℚ} (h2 : ¬ e ≤ 25) (h3 : e ≤ 35) :
    windScoreEff e = 40 - (pytrunc ((e - 25) * 2) : ℚ) := by
  unfold windScoreEff Config.WIND_SPEED_LIMITS
  dsimp only
  rw [if_neg (by push_neg at h2 ⊢; linarith), if_neg h2, if_pos h3]

lemma windScoreEff_of_b4 {e : ℚ} (h3 : ¬ e ≤ 35) : windScoreEff e = 0 := by
  unfold windScoreEff Config.WIND_SPEED_LIMITS
  dsimp only
  rw [if_neg (by push_neg at h3 ⊢; linarith),
    if_neg (by push_neg at h3 ⊢; linarith), if_neg h3]

lemma windScoreEff_b2_mem {e : ℚ} (h1 : ¬ e ≤ 15) (h2 : e ≤ 25) :
    40 ≤ windScoreEff e ∧ windScoreEff e ≤ 70 := by
  rw [windScoreEff_of_b2 h1 h2]
  push_neg at h1
  have harg : (0 : ℚ) ≤ (e - 15) * 3 := by nlinarith
  have hle := pytrunc_cast_le harg
  have hnn : (0 : ℚ) ≤ ((pytrunc ((e - 15) * 3) : ℤ) : ℚ) := by
    exact_mod_cast pytrunc_nonneg harg
  constructor <;> nlinarith

lemma windScoreEff_b3_mem {e : ℚ} (h2 : ¬ e ≤ 25) (h3 : e ≤ 35) :
    20 ≤ windScoreEff e ∧ windScoreEff e ≤ 40 := by
  rw [windScoreEff_of_b3 h2 h3]
  push_neg at h2
  have harg : (0 : ℚ) ≤ (e - 25) * 2 := by nlinarith
  have hle := pytrunc_cast_le harg
  have hnn : (0 : ℚ) ≤ ((pytrunc ((e - 25) * 2) : ℤ) : ℚ) := by
    exact_mod_cast pytrunc_nonneg harg
  constructor <;> nlinarith

lemma windScoreEff_bounds (e : ℚ) : 0 ≤ windScoreEff e ∧ windScoreEff e ≤ 100 := by
  by_cases a1 : e ≤ 15
  · rw [windScoreEff_of_b1 a1]; norm_num
  · by_cases a2 : e ≤ 25
    · obtain ⟨l, r⟩ := windScoreEff_b2_mem a1 a2
      constructor <;> linarith
    · by_cases a3 : e ≤ 35
      · obtain ⟨l, r⟩ := windScoreEff_b3_mem a2 a3
        constructor <;> linarith
      · rw [windScoreEff_of_b4 a3]; norm_num

lemma windScoreEff_antitone {e1 e2 : ℚ} (h : e1 ≤ e2) :
    windScoreEff e2 ≤ windScoreEff e1 := by
  by_cases a1 : e1 ≤ 15
  · rw [windScoreEff_of_b1 a1]
    exact (windScoreEff_bounds e2).2
  · by_cases a2 : e1 ≤ 25
    · by_cases b2 : e2 ≤ 25
      · have b1 : ¬ e2 ≤ 15 := by push_neg at a1 ⊢; linarith
        rw [windScoreEff_of_b2 a1 a2, windScoreEff_of_b2 b1 b2]
        push_neg at a1
        have harg : (0 : ℚ) ≤ (e1 - 15) * 3 := by nlinarith
        have hm : pytrunc ((e1 - 15) * 3) ≤ pytrunc ((e2 - 15) * 3) :=
          pytrunc_mono harg (by nlinarith)
        have hm' : ((pytrunc ((e1 - 15) * 3) : ℤ) : ℚ) ≤
            ((pytrunc ((e2 - 15) * 3) : ℤ) : ℚ) := by exact_mod_cast hm
        linarith
      · have h40 := (windScoreEff_b2_mem a1 a2).1
        by_cases b3 : e2 ≤ 35
        · have := (windScoreEff_b3_mem b2 b3).2
          linarith
        · rw [windScoreEff_of_b4 b3]; linarith
    · by_cases a3 : e1 ≤ 35
      · have h20 := (windScoreEff_b3_mem a2 a3).1
        by_cases b3 : e2 ≤ 35
        · have b2' : ¬ e2 ≤ 25 := by push_neg at a2 ⊢; linarith
          rw [windScoreEff_of_b3 a2 a3, windScoreEff_of_b3 b2' b3]
          push_neg at a2
          have harg : (0 : ℚ) ≤ (e1 - 25) * 2 := by nlinarith
          have hm : pytrunc ((e1 - 25) * 2) ≤ pytrunc ((e2 - 25) * 2) :=
            pytrunc_mono harg (by nlinarith)
          have hm' : ((pytrunc ((e1 - 25) * 2) : ℤ) : ℚ) ≤
              ((pytrunc ((e2 - 25) * 2) : ℤ) : ℚ) := by exact_mod_cast hm
          linarith
        · rw [windScoreEff_of_b4 b3]; linarith
      · have b4 : ¬ e2 ≤ 35 := by push_neg at a3 ⊢; linarith
        rw [windScoreEff_of_b4 a3, windScoreEff_of_b4 b4]

/-- C5: the wind sub-score is monotonically non-increasing in the effective
wind `max(speed, gust)`: of two readings differing only in wind, the one
with the smaller effective wind never has the smaller wind sub-score. -/
theorem C5_wind_monotone (w1 w2 : Wind)
    (h : max w1.speed w1.gust ≤ max w2.speed w2.gust) :
    analyze_wind w2 ≤ analyze_wind w1 := by
  rw [analyze_wind_eq_eff, analyze_wind_eq_eff]
  exact windScoreEff_antitone h

/-- C5 witness: the theorem applied to effective winds 10 and 20. -/
theorem C5_wind_monotone_witness :
    max (10 : ℚ) 0 ≤ max (20 : ℚ) 0 ∧
      analyze_wind ⟨20, 0⟩ ≤ analyze_wind ⟨10, 0⟩ :=
  ⟨by norm_num, C5_wind_monotone ⟨10, 0⟩ ⟨20, 0⟩ (by norm_num)⟩

/-- C6: the alert evaluator's wind rule reads the raw speed only — changing
the gust never changes the alert list — and on the wind-45 reading it fires
exactly the single EMERGENCY "Extreme Wind Warning", whatever the gust and
evaluation instant. -/
theorem C6_alert_wind_raw_speed_emergency :
    (∀ (r : WeatherData) (g : ℚ) (now : String),
        check_weather_alerts { r with wind := ⟨r.wind.speed, g⟩ } now =
          check_weather_alerts r now) ∧
    (∀ (w : ℚ) (now : String), (windAlerts w now).length ≤ 1) ∧
    (∀ (g : ℚ) (now : String),
        (check_weather_alerts (sample_high_wind g) now).map
            (fun a => (a.level, a.title)) =
          [(AlertLevel.EMERGENCY, "Extreme Wind Warning")]) := by
  refine ⟨?_, ?_, ?_⟩
  · intro r g now
    rfl
  · intro w now
    unfold windAlerts
    split_ifs <;> simp
  · intro g now
    have hmain_ts : strContains (strLower "Clear") "thunderstorm" = false := rfl
    have hmain_tn : strContains (strLower "Clear") "tornado" = false := rfl
    norm_num [check_weather_alerts, windAlerts, visibilityAlerts,
      temperatureAlerts, precipitationAlerts, pressureAlerts,
      weatherMainAlerts, sample_high_wind, hmain_ts, hmain_tn]

/-- C7: the recommendation list is never empty, always ends with the
closing line selected by the tier, contains exactly one closing line, and
the closing line's text is one of the four fixed strings. -/
theorem C7_recommendations_closing_line (r : WeatherData) (score : ℤ)
    (level : FlightSafety) :
    generate_flight_recommendations r score level ≠ [] ∧
    (generate_flight_recommendations r score level).getLast? =
      some (RecLine.closing level) ∧
    ((generate_flight_recommendations r score level).filter isClosing).length = 1 ∧
    render (RecLine.closing level) ∈
      (["✅ Conditions are favorable for flight operations.",
        "⚠️ Proceed with caution. Monitor conditions closely.",
        "❌ Flight not recommended. Wait for better conditions.",
        "🚫 DO NOT FLY. Conditions are unsafe for operations."] : List String) := by
  unfold generate_flight_recommendations
  dsimp only
  refine ⟨?_, ?_, ?_, ?_⟩
  · intro hcontra
    exact absurd (congrArg List.length hcontra) (by simp)
  · rw [List.getLast?_concat]
  · simp only [List.filter_append]
    split_ifs <;> simp [isClosing]
  · cases level <;> simp [render]

/-- The timestamp-free part of an alert: level, title, message. -/
def alertCore (a : WeatherAlert) : AlertLevel × String × String :=
  (a.level, a.title, a.message)

lemma windAlerts_timestamp (w : ℚ) (n : String) :
    ∀ a ∈ windAlerts w n, a.timestamp = n := by
  unfold windAlerts; split_ifs <;> simp

lemma visibilityAlerts_timestamp (v : ℚ) (n : String) :
    ∀ a ∈ visibilityAlerts v n, a.timestamp = n := by
  unfold visibilityAlerts; split_ifs <;> simp

lemma temperatureAlerts_timestamp (t : ℚ) (n : String) :
    ∀ a ∈ temperatureAlerts t n, a.timestamp = n := by
  unfold temperatureAlerts; split_ifs <;> simp

lemma precipitationAlerts_timestamp (rain snow : ℚ) (n : String) :
    ∀ a ∈ precipitationAlerts rain snow n, a.timestamp = n := by
  unfold precipitationAlerts; split_ifs <;> simp

lemma pressureAlerts_timestamp (p : ℚ) (n : String) :
    ∀ a ∈ pressureAlerts p n, a.timestamp = n := by
  unfold pressureAlerts; split_ifs <;> simp

lemma weatherMainAlerts_timestamp (m : String) (n : String) :
    ∀ a ∈ weatherMainAlerts m n, a.timestamp = n := by
  unfold weatherMainAlerts; dsimp only; split_ifs <;> simp

lemma check_weather_alerts_timestamp (r : WeatherData) (n : String) :
    ∀ a ∈ check_weather_alerts r n, a.timestamp = n := by
  unfold check_weather_alerts
  intro a ha
  simp only [List.mem_append] at ha
  rcases ha with ((((h | h) | h) | h) | h) | h
  · exact windAlerts_timestamp _ _ a h
  · exact visibilityAlerts_timestamp _ _ a h
  · exact temperatureAlerts_timestamp _ _ a h
  · exact precipitationAlerts_timestamp _ _ _ a h
  · exact pressureAlerts_timestamp _ _ a h
  · exact weatherMainAlerts_timestamp _ _ a h

lemma windAlerts_core (w : ℚ) (n1 n2 : String) :
    (windAlerts w n1).map alertCore = (windAlerts w n2).map alertCore := by
  unfold windAlerts; split_ifs <;> rfl

lemma visibilityAlerts_core (v : ℚ) (n1 n2 : String) :
    (visibilityAlerts v n1).map alertCore = (visibilityAlerts v n2).map alertCore := by
  unfold visibilityAlerts; split_ifs <;> rfl

lemma temperatureAlerts_core (t : ℚ) (n1 n2 : String) :
    (temperatureAlerts t n1).map alertCore = (temperatureAlerts t n2).map alertCore := by
  unfold temperatureAlerts; split_ifs <;> rfl

lemma precipitationAlerts_core (rain snow : ℚ) (n1 n2 : String) :
    (precipitationAlerts rain snow n1).map alertCore =
      (precipitationAlerts rain snow n2).map alertCore := by
  unfold precipitationAlerts; split_ifs <;> rfl

lemma pressureAlerts_core (p : ℚ) (n1 n2 : String) :
    (pressureAlerts p n1).map alertCore = (pressureAlerts p n2).map alertCore := by
  unfold pressureAlerts; split_ifs <;> rfl

lemma weatherMainAlerts_core (m : String) (n1 n2 : String) :
    (weatherMainAlerts m n1).map alertCore = (weatherMainAlerts m n2).map alertCore := by
  unfold weatherMainAlerts; dsimp only; split_ifs <;> rfl

/-- C8 counterexample: the alert evaluator stamps each alert with the
evaluation instant, so two calls on the identical wind-45 reading at
different instants return lists differing bit-for-bit (in the timestamp
field). -/
theorem C8_counterexample_timestamp :
    check_weather_alerts (sample_high_wind 0) "2024-01-01T00:00:00" ≠
      check_weather_alerts (sample_high_wind 0) "2024-01-01T00:00:01" := by
  intro h
  have hlen : (check_weather_alerts (sample_high_wind 0) "2024-01-01T00:00:00").length = 1 := by
    have hmain_ts : strContains (strLower "Clear") "thunderstorm" = false := rfl
    have hmain_tn : strContains (strLower "Clear") "tornado" = false := rfl
    norm_num [check_weather_alerts, windAlerts, visibilityAlerts,
      temperatureAlerts, precipitationAlerts, pressureAlerts,
      weatherMainAlerts, sample_high_wind, hmain_ts, hmain_tn]
  have hne : check_weather_alerts (sample_high_wind 0) "2024-01-01T00:00:00" ≠ [] := by
    intro hc
    rw [hc] at hlen
    simp at hlen
  obtain ⟨a, ha⟩ := List.exists_mem_of_ne_nil _ hne
  have h1 : a.timestamp = "2024-01-01T00:00:00" :=
    check_weather_alerts_timestamp _ _ a ha
  have h2 : a.timestamp = "2024-01-01T00:00:01" :=
    check_weather_alerts_timestamp _ _ a (h ▸ ha)
  rw [h1] at h2
  exact absurd h2 (by decide)

/-- C8 amended: scoring and recommendation are pure functions of the
reading in this model; the alert evaluator is deterministic up to the
timestamp field — two evaluations of the identical reading agree on level,
title and message of every alert, and each alert carries its own call's
evaluation instant. -/
theorem C8_amended_deterministic_modulo_timestamp (r : WeatherData)
    (n1 n2 : String) :
    (check_weather_alerts r n1).map alertCore =
      (check_weather_alerts r n2).map alertCore ∧
    (check_weather_alerts r n1).all (fun a => a.timestamp == n1) = true := by
  constructor
  · unfold check_weather_alerts
    simp only [List.map_append]
    rw [windAlerts_core r.wind.speed n1 n2,
      visibilityAlerts_core r.visibility n1 n2,
      temperatureAlerts_core r.temperature.current n1 n2,
      precipitationAlerts_core r.precipitation.rain_1h r.precipitation.snow_1h n1 n2,
      pressureAlerts_core r.pressure n1 n2,
      weatherMainAlerts_core r.weather.main n1 n2]
  · rw [List.all_eq_true]
    intro a ha
    simpa using check_weather_alerts_timestamp r n1 a ha

/-- A reading whose wind speed 20 sits between the safe (15) and caution
(25) thresholds; all other factors benign. -/
def sample_moderate_wind : WeatherData := ⟨⟨20, 0⟩, 15, ⟨22⟩, ⟨0, 0⟩, 10, 1015, ⟨"Clear"⟩⟩

/-- C9 counterexample: wind speed 20 is at or below the caution threshold
25, yet the generator emits the wind-related "Moderate winds" line (the
source's elif branch for speeds above the safe threshold 15). -/
theorem C9_counterexample_moderate_wind :
    sample_moderate_wind.wind.speed ≤ Config.WIND_SPEED_LIMITS.caution ∧
    calculate_flight_score (some sample_moderate_wind) = (86, FlightSafety.SAFE) ∧
    RecLine.moderateWind 20 ∈
      generate_flight_recommendations sample_moderate_wind 86 FlightSafety.SAFE ∧
    isWindLine (RecLine.moderateWind 20) = true := by
  have hw : analyze_wind sample_moderate_wind.wind = 55 := by
    rw [analyze_wind_eq_eff]
    have hm : max sample_moderate_wind.wind.speed sample_moderate_wind.wind.gust =
        (20 : ℚ) := by
      norm_num [sample_moderate_wind, max_def]
    rw [hm, windScoreEff_of_b2 (by norm_num) (by norm_num),
      show ((20 : ℚ) - 15) * 3 = 15 by norm_num,
      pytrunc_eq_floor (by norm_num)]
    norm_num
  have hv : analyze_visibility sample_moderate_wind.visibility = 100 := by
    norm_num [analyze_visibility, Config.VISIBILITY_LIMITS, sample_moderate_wind]
  have ht : analyze_temperature sample_moderate_wind.temperature.current = 100 := by
    norm_num [analyze_temperature, Config.TEMPERATURE_LIMITS, sample_moderate_wind]
  have hp : analyze_precipitation sample_moderate_wind.precipitation = 100 := by
    norm_num [analyze_precipitation, Config.PRECIPITATION_LIMITS, sample_moderate_wind]
  have hc : analyze_clouds sample_moderate_wind.cloudiness = 100 := by
    norm_num [analyze_clouds, sample_moderate_wind]
  have htot : total_score sample_moderate_wind = 86.5 := by
    rw [total_score, hw, hv, ht, hp, hc]; norm_num
  refine ⟨by norm_num [sample_moderate_wind, Config.WIND_SPEED_LIMITS], ?_, ?_, rfl⟩
  · show (pytrunc (total_score sample_moderate_wind),
        determine_safety_level (total_score sample_moderate_wind)) = _
    rw [htot, pytrunc_eq_floor (by norm_num)]
    norm_num [determine_safety_level]
  · norm_num [generate_flight_recommendations, Config.WIND_SPEED_LIMITS,
      Config.VISIBILITY_LIMITS, Config.TEMPERATURE_LIMITS, sample_moderate_wind]

/-- C9 amended: the wind-related recommendation lines are exactly: the
high-wind advisory when speed exceeds the caution threshold, the
moderate-winds line when speed exceeds the safe threshold but not the
caution threshold, and none when speed is at or below the safe
threshold. -/
theorem C9_amended_wind_lines (r : WeatherData) (score : ℤ)
    (level : FlightSafety) :
    (generate_flight_recommendations r score level).filter isWindLine =
      (if r.wind.speed > Config.WIND_SPEED_LIMITS.caution then
        [RecLine.highWind r.wind.speed]
      else if r.wind.speed > Config.WIND_SPEED_LIMITS.safe then
        [RecLine.moderateWind r.wind.speed]
      else []) := by
  unfold generate_flight_recommendations
  dsimp only
  simp only [List.filter_append]
  split_ifs <;> simp [isWindLine]

/-- C10: the cloudiness sub-score is never below 50, so every present
reading scores at least 5; a returned score of 0 forces the absent
reading. -/
theorem C10_score_zero_only_absent (o : Option WeatherData) (r : WeatherData) :
    50 ≤ analyze_clouds r.cloudiness ∧
    5 ≤ (calculate_flight_score (some r)).1 ∧
    ((calculate_flight_score o).1 = 0 → o = none) := by
  have hge : ∀ wd : WeatherData, 5 ≤ (calculate_flight_score (some wd)).1 := by
    intro wd
    show (5 : ℤ) ≤ pytrunc (total_score wd)
    rw [pytrunc_eq_floor (total_score_nonneg wd)]
    exact Int.le_floor.mpr (by exact_mod_cast (total_score_bounds wd).1)
  refine ⟨(analyze_clouds_bounds r.cloudiness).1, hge r, ?_⟩
  intro h0
  cases o with
  | none => rfl
  | some wd =>
    have := hge wd
    omega

/-- C10 witness: the theorem at the absent reading and the clear-day
sample, discharging the zero-score hypothesis at `none`. -/
theorem C10_score_zero_only_absent_witness :
    5 ≤ (calculate_flight_score (some sample_clear_day)).1 ∧
      (none : Option WeatherData) = none :=
  ⟨(C10_score_zero_only_absent none sample_clear_day).2.1,
    (C10_score_zero_only_absent none sample_clear_day).2.2 rfl⟩

/-! ### C3: input validation (spec comparison)

The spec's error taxonomy (§7) describes an `InvalidInputError` raised
eagerly for non-finite or out-of-domain numeric fields. No such validation
or error class exists anywhere in the source; the definitions below follow
the spec's words so the claim can be compared against the code. Non-finite
floats are not representable in the exact-rational model; out-of-domain
fields (negative visibility) are. -/

inductive CoreError where
  | InvalidInputError
  deriving DecidableEq, Repr

/-- Domain validity of a reading following the spec's words (§3): visibility
non-negative, precipitation channels non-negative, cloudiness 0-100. -/
def valid_reading (r : WeatherData) : Bool :=
  decide (0 ≤ r.visibility) && decide (0 ≤ r.precipitation.rain_1h) &&
    decide (0 ≤ r.precipitation.snow_1h) && decide (0 ≤ r.cloudiness) &&
    decide (r.cloudiness ≤ 100)

/-- Scoring as the spec's §4.1/§7 words describe it: reject out-of-domain
readings eagerly with `InvalidInputError`, otherwise score as the code
does. Stated for comparison with `calculate_flight_score`. -/
def score_spec (o : Option WeatherData) : Except CoreError (ℤ × FlightSafety) :=
  match o with
  | none => .ok (0, .NO_FLY)
  | some r =>
    if valid_reading r then .ok (calculate_flight_score (some r))
    else .error .InvalidInputError

/-- A reading with out-of-domain visibility -1; all other fields benign. -/
def sample_negative_visibility : WeatherData :=
  ⟨⟨10, 0⟩, -1, ⟨22⟩, ⟨0, 0⟩, 10, 1015, ⟨"Clear"⟩⟩

/-- C3 counterexample: on the negative-visibility reading the spec's
validating scorer raises `InvalidInputError`, but the code scores it
normally, returning `(75, CAUTION)` — no error path exists in the core. -/
theorem C3_counterexample_negative_visibility :
    score_spec (some sample_negative_visibility) =
      Except.error CoreError.InvalidInputError ∧
    calculate_flight_score (some sample_negative_visibility) =
      (75, FlightSafety.CAUTION) := by
  have hv : analyze_visibility sample_negative_visibility.visibility = 0 := by
    norm_num [analyze_visibility, Config.VISIBILITY_LIMITS,
      sample_negative_visibility]
  have hw : analyze_wind sample_negative_visibility.wind = 100 := by
    norm_num [analyze_wind, Config.WIND_SPEED_LIMITS,
      sample_negative_visibility, max_def]
  have ht : analyze_temperature sample_negative_visibility.temperature.current = 100 := by
    norm_num [analyze_temperature, Config.TEMPERATURE_LIMITS,
      sample_negative_visibility]
  have hp : analyze_precipitation sample_negative_visibility.precipitation = 100 := by
    norm_num [analyze_precipitation, Config.PRECIPITATION_LIMITS,
      sample_negative_visibility]
  have hc : analyze_clouds sample_negative_visibility.cloudiness = 100 := by
    norm_num [analyze_clouds, sample_negative_visibility]
  have htot : total_score sample_negative_visibility = 75 := by
    rw [total_score, hw, hv, ht, hp, hc]; norm_num
  constructor
  · norm_num [score_spec, valid_reading, sample_negative_visibility]
  · show (pytrunc (total_score sample_negative_visibility),
        determine_safety_level (total_score sample_negative_visibility)) = _
    rw [htot, pytrunc_eq_floor (by norm_num)]
    norm_num [determine_safety_level]

/-- C3 amended: the core performs no input validation and can raise no
error: scoring is total, and an out-of-domain negative visibility is simply
scored in the lowest visibility bracket — exactly as a visibility of 0
would be. -/
theorem C3_amended_no_validation (r : WeatherData) (h : r.visibility < 0) :
    analyze_visibility r.visibility = 0 ∧
    calculate_flight_score (some r) =
      calculate_flight_score (some { r with visibility := 0 }) := by
  have h1 : analyze_visibility r.visibility = 0 := by
    unfold analyze_visibility Config.VISIBILITY_LIMITS
    dsimp only
    rw [if_neg (by push_neg; linarith), if_neg (by push_neg; linarith),
      if_neg (by push_neg; linarith)]
  have h2 : analyze_visibility (0 : ℚ) = 0 := by
    norm_num [analyze_visibility, Config.VISIBILITY_LIMITS]
  have htot : total_score { r with visibility := 0 } = total_score r := by
    unfold total_score
    dsimp only
    rw [h1, h2]
  refine ⟨h1, ?_⟩
  show (pytrunc (total_score r), determine_safety_level (total_score r)) =
    (pytrunc (total_score { r with visibility := 0 }),
      determine_safety_level (total_score { r with visibility := 0 }))
  rw [htot]

/-- C3 amended witness: the amended theorem at the concrete
negative-visibility reading. -/
theorem C3_amended_no_validation_witness :
    sample_negative_visibility.visibility < 0 ∧
    analyze_visibility sample_negative_visibility.visibility = 0 :=
  ⟨by norm_num [sample_negative_visibility],
    (C3_amended_no_validation sample_negative_visibility
      (by norm_num [sample_negative_visibility])).1⟩

end WeatherAssistant
